import Mathlib

/- Verification development for the rhinoMcpServer relay and daemon.
The definitions below are shallow embeddings of the Python sources:
src/src/daemon_mcp_server.py (threaded backend daemon dispatcher),
src/src/socket_proxy.py (stdio relay), src/standalone-mcp-server.py
(standalone server) and src/combined_mcp_server.py (RhinoConnection
endpoint client).  Byte streams are modelled as lists of characters,
machine-level JSON parsing is abstracted into the outcome it produces
(valid object / valid non-object / invalid), and network calls are
abstracted into the outcome the peer produces. -/

namespace RhinoMcp

/-! ## Frame codec

Both the daemon handler loop (daemon_mcp_server.py lines 124-143) and the
relay output loop (socket_proxy.py lines 177-227) run the same framing
algorithm over a byte stream: append the received chunk to a buffer,
then, while the buffer contains a line break, split off the first line
and deliver it when it is nonempty; the remainder stays buffered.
`scanLines cur s` models one pass of that inner while-loop over the
bytes `s`, where `cur` is the partial line read so far: it returns the
complete lines (in order, including empty ones, which the caller skips)
and the trailing unterminated bytes. -/

def scanLines : List Char → List Char → List (List Char) × List Char
  | cur, [] => ([], cur)
  | cur, c :: rest =>
    if c = '\n' then
      ((cur :: (scanLines [] rest).1), (scanLines [] rest).2)
    else
      scanLines (cur ++ [c]) rest

/-- One arrival of a chunk `data` with buffered bytes `buf`:
`buffer += data` followed by the line-extraction loop. -/
def feedChunk (buf : List Char) (data : List Char) : List (List Char) × List Char :=
  scanLines [] (buf ++ data)

/-- The full receive loop over a sequence of chunks, starting from the
buffer `buf`: every chunk is appended and all complete lines are split
off, in order; the second component is the final buffer. -/
def feedAll : List Char → List (List Char) → List (List Char) × List Char
  | buf, [] => ([], buf)
  | buf, ch :: rest =>
      ((feedChunk buf ch).1 ++ (feedAll (feedChunk buf ch).2 rest).1,
       (feedAll (feedChunk buf ch).2 rest).2)

/-- The `if line:` guard of both loops: only nonempty lines are
delivered (dispatched by the daemon, printed by the relay). -/
def deliver (ls : List (List Char)) : List (List Char) :=
  ls.filter (fun l => !l.isEmpty)

/-- Encoding of a sequence of frames as a byte stream: each frame is a
serialized JSON value (which contains no raw line break) followed by
exactly one line-break terminator, as produced by
`json.dumps(data) + "\n"` in send_response. -/
def encodeFrames : List (List Char) → List Char
  | [] => []
  | f :: rest => f ++ '\n' :: encodeFrames rest

theorem scanLines_nil (cur : List Char) : scanLines cur [] = ([], cur) := by
  simp [scanLines]

theorem scanLines_cons_nl (cur rest : List Char) :
    scanLines cur ('\n' :: rest) =
      ((cur :: (scanLines [] rest).1), (scanLines [] rest).2) := by
  simp [scanLines]

theorem scanLines_cons_ne (cur rest : List Char) (c : Char) (h : c ≠ '\n') :
    scanLines cur (c :: rest) = scanLines (cur ++ [c]) rest := by
  simp [scanLines, h]

/-- Scanning bytes that contain no terminator produces no line and
appends the bytes to the partial line. -/
theorem scanLines_no_nl (l : List Char) (h : '\n' ∉ l) (cur : List Char) :
    scanLines cur l = ([], cur ++ l) := by
  induction l generalizing cur with
  | nil => simp [scanLines]
  | cons c rest ih =>
      have hc : c ≠ '\n' := by
        intro hcn
        exact h (hcn ▸ List.mem_cons_self c rest)
      have hr : '\n' ∉ rest := fun hm => h (List.mem_cons_of_mem c hm)
      rw [scanLines_cons_ne cur rest c hc, ih hr]
      simp

/-- Splitting the scanned bytes at any point composes: the lines of
`a ++ b` are the lines of `a` followed by the lines of `b` scanned with
the partial line left over from `a`. -/
theorem scanLines_append (a : List Char) (cur b : List Char) :
    scanLines cur (a ++ b) =
      ((scanLines cur a).1 ++ (scanLines (scanLines cur a).2 b).1,
       (scanLines (scanLines cur a).2 b).2) := by
  induction a generalizing cur with
  | nil => simp [scanLines]
  | cons c rest ih =>
      by_cases hc : c = '\n'
      · subst hc
        simp only [List.cons_append, scanLines_cons_nl, ih]
      · simp only [List.cons_append, scanLines_cons_ne _ _ _ hc, ih]

/-- The unterminated remainder never contains a terminator. -/
theorem scanLines_snd_no_nl (l : List Char) (cur : List Char) (h : '\n' ∉ cur) :
    '\n' ∉ (scanLines cur l).2 := by
  induction l generalizing cur with
  | nil => simpa [scanLines] using h
  | cons c rest ih =>
      by_cases hc : c = '\n'
      · subst hc
        rw [scanLines_cons_nl]
        exact ih [] (by simp)
      · rw [scanLines_cons_ne _ _ _ hc]
        exact ih (cur ++ [c]) (by simp [List.mem_append, h, Ne.symm hc])

/-- Chunking is invisible: feeding the chunks one by one through the
buffered loop yields exactly the lines of the concatenated stream. -/
theorem feedAll_eq_scan (cs : List (List Char)) (buf : List Char) (h : '\n' ∉ buf) :
    feedAll buf cs = scanLines [] (buf ++ cs.flatten) := by
  induction cs generalizing buf with
  | nil => simp [feedAll, scanLines_no_nl _ h]
  | cons ch rest ih =>
      have hsnd : '\n' ∉ (scanLines [] (buf ++ ch)).2 :=
        scanLines_snd_no_nl _ [] (by simp)
      have hx := ih (scanLines [] (buf ++ ch)).2 hsnd
      simp only [feedAll, feedChunk, hx, List.flatten_cons]
      rw [← List.append_assoc, scanLines_append (buf ++ ch) [] rest.flatten]
      have hfst : (scanLines [] (scanLines [] (buf ++ ch)).2).1 = [] := by
        rw [scanLines_no_nl _ hsnd]
      have hsnd2 : (scanLines [] (scanLines [] (buf ++ ch)).2).2
          = (scanLines [] (buf ++ ch)).2 := by
        rw [scanLines_no_nl _ hsnd]
        simp
      rw [scanLines_append ((scanLines [] (buf ++ ch)).2) [] rest.flatten,
        hfst, hsnd2]
      simp

/-- Scanning an encoded frame sequence followed by terminator-free
trailing bytes recovers exactly the frames, with the trailing bytes as
the final remainder. -/
theorem scanLines_encode (fs : List (List Char)) (t : List Char)
    (hfs : ∀ f ∈ fs, '\n' ∉ f) (ht : '\n' ∉ t) :
    scanLines [] (encodeFrames fs ++ t) = (fs, t) := by
  induction fs with
  | nil =>
      simp only [encodeFrames, List.nil_append]
      rw [scanLines_no_nl _ ht]
      simp
  | cons f rest ih =>
      have hf : '\n' ∉ f := hfs f (by simp)
      have hrest : ∀ g ∈ rest, '\n' ∉ g := fun g hg => hfs g (by simp [hg])
      have : encodeFrames (f :: rest) ++ t = f ++ '\n' :: (encodeFrames rest ++ t) := by
        simp [encodeFrames]
      rw [this, scanLines_append f [] ('\n' :: (encodeFrames rest ++ t))]
      rw [scanLines_no_nl _ hf]
      simp only [List.nil_append]
      rw [scanLines_cons_nl, ih hrest]

/-! ## Backend daemon dispatcher (src/src/daemon_mcp_server.py)

The daemon state merges the module-level globals EXIT_FLAG and
SERVER_STATE with the per-handler fields self.client_connected and
self.local_state.  An incoming line is modelled by the outcome of
`json.loads`: `malformed` when parsing raises JSONDecodeError,
`nonDict` when it yields a value that is not a dict (so `.get` raises
AttributeError), and `obj m` for a parsed object.  The capability
manifest SERVER_CAPABILITIES (lines 46-111) is embedded with the tool
names, parameter names, required flags and schema types; the free-prose
description strings are omitted. -/

inductive SrvState
  | waiting
  | initialized
  | processing
deriving DecidableEq

structure DaemonState where
  exitFlag : Bool
  serverState : SrvState
  clientConnected : Bool
  localState : SrvState
deriving DecidableEq

structure ToolParam where
  name : String
  required : Bool
  schemaType : String
deriving DecidableEq

structure ToolSpec where
  name : String
  parameters : List ToolParam
deriving DecidableEq

structure ServerInfo where
  name : String
  version : String
deriving DecidableEq

structure Capabilities where
  serverInfo : ServerInfo
  tools : List ToolSpec
deriving DecidableEq

def SERVER_CAPABILITIES : Capabilities :=
  ⟨⟨"RhinoMcpServer", "0.1.0"⟩,
   [⟨"geometry_tools.create_sphere",
      [⟨"centerX", true, "number"⟩, ⟨"centerY", true, "number"⟩,
       ⟨"centerZ", true, "number"⟩, ⟨"radius", true, "number"⟩,
       ⟨"color", false, "string"⟩]⟩,
    ⟨"geometry_tools.create_box",
      [⟨"cornerX", true, "number"⟩, ⟨"cornerY", true, "number"⟩,
       ⟨"cornerZ", true, "number"⟩, ⟨"width", true, "number"⟩,
       ⟨"depth", true, "number"⟩, ⟨"height", true, "number"⟩,
       ⟨"color", false, "string"⟩]⟩,
    ⟨"geometry_tools.create_cylinder",
      [⟨"baseX", true, "number"⟩, ⟨"baseY", true, "number"⟩,
       ⟨"baseZ", true, "number"⟩, ⟨"height", true, "number"⟩,
       ⟨"radius", true, "number"⟩, ⟨"color", false, "string"⟩]⟩,
    ⟨"scene_tools.get_scene_info", []⟩,
    ⟨"scene_tools.clear_scene", [⟨"currentLayerOnly", false, "boolean"⟩]⟩,
    ⟨"scene_tools.create_layer",
      [⟨"name", true, "string"⟩, ⟨"color", false, "string"⟩]⟩]⟩

/-- The fields of a parsed request the dispatcher reads: `id` and
`method` via `.get` with defaults, and, for tools/call, the
`params.name` and `params.parameters` entries, whose absence raises
KeyError (modelled by `params = none`). -/
structure ToolParams where
  name : String
  parameters : String
deriving DecidableEq

structure Msg where
  id : Option Int
  method : Option String
  params : Option ToolParams
deriving DecidableEq

inductive Line
  | malformed
  | nonDict
  | obj (m : Msg)
deriving DecidableEq

structure ErrorObj where
  code : Int
  message : String
deriving DecidableEq

inductive ResultVal
  | capabilities (c : Capabilities)
  | shutdownOk
  | toolOk (name : String) (parameters : String)
deriving DecidableEq

inductive RespBody
  | result (r : ResultVal)
  | error (e : ErrorObj)
deriving DecidableEq

/-- Every response the daemon builds carries a numeric id field. -/
structure Response where
  id : Int
  body : RespBody
deriving DecidableEq

inductive ExnCause
  | jsonDecode
  | attrOnNonDict
  | missingParams
deriving DecidableEq

inductive LogEvent
  | processingMethod (m : String)
  | unknownMethod (m : String)
  | cancelNotice
  | errorProcessing (c : ExnCause)
  | initOk
  | shutdownByClient
  | execTool (n : String)
deriving DecidableEq

structure StepOut where
  responses : List Response
  logs : List LogEvent
  state : DaemonState
deriving DecidableEq

/-- MCPRequestHandler.handle_initialize (lines 200-221): set the global
SERVER_STATE and the local state to initialized, answer with the
capability manifest under the request id (default 0), keep the
connection open. -/
def handleInitRequest (request : Msg) (st : DaemonState) : StepOut :=
  ⟨[⟨request.id.getD 0, .result (.capabilities SERVER_CAPABILITIES)⟩],
   [.initOk],
   ⟨st.exitFlag, .initialized, st.clientConnected, .initialized⟩⟩

/-- MCPRequestHandler.handle_tool_call (lines 223-240): read
params.name and params.parameters (KeyError — modelled as `none` — when
absent, handled by the caller), reply with a dummy success result;
state untouched. -/
def handle_tool_call (request : Msg) (st : DaemonState) : Option StepOut :=
  match request.params with
  | none => none
  | some p =>
      some ⟨[⟨request.id.getD 0, .result (.toolOk p.name p.parameters)⟩],
            [.execTool p.name], st⟩

/-- MCPRequestHandler.handle_shutdown (lines 242-255): acknowledge with
a success result under the request id and clear only
self.client_connected; EXIT_FLAG and SERVER_STATE are untouched. -/
def handle_shutdown (request : Msg) (st : DaemonState) : StepOut :=
  ⟨[⟨request.id.getD 0, .result .shutdownOk⟩],
   [.shutdownByClient],
   ⟨st.exitFlag, st.serverState, false, st.localState⟩⟩

/-- MCPRequestHandler.process_message (lines 156-198).  On a line that
fails `json.loads`, the broad `except` logs the decode error and then
tries to build a -32603 reply; that construction evaluates the local
variable `message`, which was never bound, so the nested bare `except`
swallows the NameError and no response is sent.  On a parsed non-dict,
`.get` raises AttributeError and the -32603 reply is sent with id 0.
On a parsed dict the method is dispatched; a KeyError escaping
handle_tool_call is answered with -32603 under the request id. -/
def process_message (line : Line) (st : DaemonState) : StepOut :=
  match line with
  | .malformed =>
      ⟨[], [.errorProcessing .jsonDecode], st⟩
  | .nonDict =>
      ⟨[⟨0, .error ⟨-32603, "Internal error"⟩⟩],
       [.errorProcessing .attrOnNonDict], st⟩
  | .obj m =>
      let method := m.method.getD ("")
      if method = "initialize" then
        let out := handleInitRequest m st
        ⟨out.responses, .processingMethod method :: out.logs, out.state⟩
      else if method = "tools/call" then
        match handle_tool_call m st with
        | some out =>
            ⟨out.responses, .processingMethod method :: out.logs, out.state⟩
        | none =>
            ⟨[⟨m.id.getD 0, .error ⟨-32603, "Internal error"⟩⟩],
             [.processingMethod method, .errorProcessing .missingParams], st⟩
      else if method = "shutdown" then
        let out := handle_shutdown m st
        ⟨out.responses, .processingMethod method :: out.logs, out.state⟩
      else if method = "notifications/cancelled" then
        ⟨[], [.processingMethod method, .cancelNotice], st⟩
      else
        ⟨[⟨m.id.getD 0,
            .error ⟨-32601, "Method " ++ method ++ " not found"⟩⟩],
         [.processingMethod method, .unknownMethod method], st⟩

/-- The handler receive loop (lines 125-143), one decoded line per
iteration: it keeps serving while EXIT_FLAG is unset and the client is
connected. -/
def handleLines : List Line → DaemonState → List Response × DaemonState
  | [], st => ([], st)
  | l :: rest, st =>
      if !st.exitFlag && st.clientConnected then
        ((process_message l st).responses
           ++ (handleLines rest (process_message l st).state).1,
         (handleLines rest (process_message l st).state).2)
      else ([], st)

/-- The state of a freshly accepted connection: EXIT_FLAG false,
SERVER_STATE waiting, client_connected True, local_state waiting. -/
def initialDaemonState : DaemonState := ⟨false, .waiting, true, .waiting⟩

/-- daemon_mcp_server.signal_handler (lines 277-289): when SERVER_STATE
is not waiting it only sleeps one second first; in every state it then
sets EXIT_FLAG.  Returns (whether the handler delayed, new EXIT_FLAG).
-/
def daemon_signal_handler (serverState : SrvState) (exitFlag : Bool) : Bool × Bool :=
  (serverState != SrvState.waiting, true)

/-! ## Stdio relay lifecycle (src/src/socket_proxy.py)

A small transition system over the observable relay state: the global
INITIALIZED and EXIT_FLAG flags, whether the stdin-forwarding thread
(forward_stdin_to_socket, lines 104-170) and the socket-forwarding
thread (forward_socket_to_stdout, lines 172-267) are alive, and whether
the process has terminated.  Events: end-of-file on stdin, a stdin line
(which sets INITIALIZED when it is an initialize request, line 127), the
daemon closing the socket, a 2-second receive timeout (caught and
ignored, line 229), a termination signal, and one pass of the main
supervising loop (lines 325-346), which restarts both threads when both
have died while INITIALIZED and otherwise exits the process when both
have died or EXIT_FLAG is set. -/

structure RelayState where
  flagInit : Bool
  stdinAlive : Bool
  sockAlive : Bool
  exitFlag : Bool
  terminated : Bool
deriving DecidableEq

inductive REvent
  | stdinEof
  | stdinMsg (isInit : Bool)
  | sockClosed
  | sockTimeout
  | signal
  | mainCheck
deriving DecidableEq

def relayStep (s : RelayState) (e : REvent) : RelayState :=
  if s.terminated then s else
  match e with
  | .stdinEof =>
      -- lines 113-122: on EOF, stay alive (sleep 30 and continue) when
      -- INITIALIZED, otherwise break out of the forwarding loop
      if s.stdinAlive then
        if s.flagInit then s else { s with stdinAlive := false }
      else s
  | .stdinMsg isInit =>
      -- lines 124-131: an initialize request on stdin sets INITIALIZED
      if s.stdinAlive && isInit then { s with flagInit := true } else s
  | .sockClosed =>
      -- lines 182-204: on an empty read, reconnect and continue when
      -- INITIALIZED, otherwise break out of the forwarding loop
      if s.sockAlive then
        if s.flagInit then s else { s with sockAlive := false }
      else s
  | .sockTimeout =>
      -- line 229-231: a receive timeout is not an error; continue
      s
  | .signal =>
      -- signal_handler, lines 269-282
      if s.flagInit then s else { s with exitFlag := true }
  | .mainCheck =>
      -- lines 325-346: the loop runs while EXIT_FLAG is unset; when
      -- both forwarding threads have exited it restarts them when
      -- INITIALIZED and otherwise breaks, ending the process
      if s.exitFlag then { s with terminated := true }
      else if !s.stdinAlive && !s.sockAlive then
        if s.flagInit then { s with stdinAlive := true, sockAlive := true }
        else { s with terminated := true }
      else s

def runRelay (s : RelayState) (evs : List REvent) : RelayState :=
  evs.foldl relayStep s

/-- The relay before any initialize has been seen, both threads
running. -/
def relayStart : RelayState := ⟨false, true, true, false, false⟩

/-- Events that do not involve the daemon closing the socket or a
signal: everything the relay can experience when the only external
stimulus is the end-of-file on its standard input. -/
def innocuousEvents : List REvent :=
  [.stdinEof, .stdinMsg false, .stdinMsg true, .sockTimeout, .mainCheck]

/-- Bounded search: no sequence of at most `n` innocuous events drives
the state into termination. -/
def neverTermWithin : Nat → RelayState → Bool
  | 0, s => !s.terminated
  | n + 1, s =>
      !s.terminated &&
        innocuousEvents.all (fun e => neverTermWithin n (relayStep s e))

/-- socket_proxy.signal_handler (lines 269-282): once INITIALIZED the
signal is ignored (EXIT_FLAG untouched), otherwise EXIT_FLAG is set.
Returns the new EXIT_FLAG. -/
def proxy_signal_handler (flagInit : Bool) (exitFlag : Bool) : Bool :=
  if flagInit then exitFlag else true

/-- standalone-mcp-server.py signal_handler (lines 604-612): the signal
is ignored only while the IGNORE_SIGNALS critical-section flag is set
(it is set only while composing the initialize response, lines
220-315); in every other situation — whatever SERVER_STATE is —
EXIT_FLAG is set.  Returns the new EXIT_FLAG. -/
def standalone_signal_handler (ignoreSignals : Bool) (exitFlag : Bool) : Bool :=
  if ignoreSignals then exitFlag else true

/-! ## Backend endpoint clients

send_to_rhino (src/standalone-mcp-server.py lines 182-208) and
RhinoConnection.send_command (src/combined_mcp_server.py lines
125-221).  The network is abstracted by the outcome the downstream
endpoint produces for the call; each model records how many new TCP
connections the call dials successfully, the receive timeout installed
on the socket, what the call yields, and (for RhinoConnection) the
updated connection state. -/

inductive IoOutcome
  | ok (resp : String)
  | timeout
  | reset
deriving DecidableEq

/-- What a call can yield to its caller: a returned value, or a raised
exception (the Python `raise`) distinguishing timeout from connection
failure. -/
inductive RhinoResp
  | body (s : String)
  | errObject (message : String)
deriving DecidableEq

inductive RhinoReturn
  | response (r : RhinoResp)
  | raisedTransport
deriving DecidableEq

/-- Whether a call outcome is a raised transport error rather than a
returned response. -/
def RhinoReturn.isRaised : RhinoReturn → Bool
  | .raisedTransport => true
  | .response _ => false

structure RhinoCallOut where
  opened : Nat
  recvTimeoutSecs : Option Nat
  ret : RhinoReturn
deriving DecidableEq

/-- send_to_rhino: a fresh socket is created with a 10-second timeout
and dialled for every call and closed afterwards; every exception —
timeout, connection failure — is caught and turned into the string
`json.dumps` of a dict with an `error` key, which the function returns
like any other response.  `dialOk` is whether the connect succeeds. -/
def send_to_rhino (dialOk : Bool) (io : IoOutcome) : RhinoCallOut :=
  if dialOk = false then
    ⟨0, some 10, .response (.errObject ("Error communicating with Rhino"))⟩
  else
    match io with
    | .ok r => ⟨1, some 10, .response (.body r)⟩
    | .timeout =>
        ⟨1, some 10, .response (.errObject ("Error communicating with Rhino"))⟩
    | .reset =>
        ⟨1, some 10, .response (.errObject ("Error communicating with Rhino"))⟩

/-- RhinoConnection state: whether self.sock currently holds an open
socket, and the running request counter. -/
structure RhinoConnState where
  sockOpen : Bool
  request_id : Nat
deriving DecidableEq

inductive CmdResult
  | result (r : String)
  | raisedTimeout
  | raisedConnError
deriving DecidableEq

structure CmdCallOut where
  opened : Nat
  recvTimeoutSecs : Option Nat
  result : CmdResult
  state : RhinoConnState
deriving DecidableEq

/-- RhinoConnection.send_command: `if not self.sock and not
self.connect(): raise ConnectionError` — an already-open socket is
reused and no connection is dialled; only when none is open is one
dialled (RhinoConnection.connect, lines 99-113).  The request counter
is then incremented, a 10-second receive timeout installed, and the
response read; on timeout or a connection error the socket is dropped
(self.sock = None) and an exception raised, while on success the socket
is kept for the next call. -/
def send_command (st : RhinoConnState) (dialOk : Bool) (io : IoOutcome) : CmdCallOut :=
  if st.sockOpen = false ∧ dialOk = false then
    ⟨0, none, .raisedConnError, ⟨false, st.request_id⟩⟩
  else
    let opened := if st.sockOpen then 0 else 1
    let rid := st.request_id + 1
    match io with
    | .ok r => ⟨opened, some 10, .result r, ⟨true, rid⟩⟩
    | .timeout => ⟨opened, some 10, .raisedTimeout, ⟨false, rid⟩⟩
    | .reset => ⟨opened, some 10, .raisedConnError, ⟨false, rid⟩⟩

/-! ## Claims about the daemon dispatcher -/

/-- C1, counterexample.  A shutdown request with id 3 reaching the
daemon dispatcher in the initialized state is acknowledged with a
success result, but the process-wide exit flag stays unset — only the
connection flag of the handler that carried the request is cleared, so
the daemon process is not asked to terminate. -/
theorem c1_counterexample :
    (process_message (.obj ⟨some 3, some ("shutdown"), none⟩)
        ⟨false, .initialized, true, .initialized⟩).responses
      = [⟨3, .result .shutdownOk⟩] ∧
    (process_message (.obj ⟨some 3, some ("shutdown"), none⟩)
        ⟨false, .initialized, true, .initialized⟩).state.exitFlag = false ∧
    (process_message (.obj ⟨some 3, some ("shutdown"), none⟩)
        ⟨false, .initialized, true, .initialized⟩).state.clientConnected = false :=
  ⟨rfl, rfl, rfl⟩

/-- C1, amended.  For every shutdown request frame received by the
backend daemon dispatcher, the handler sends a success acknowledgement
carrying the request id (defaulting to 0) and requests closure of only
the connection that carried the request: the handler connection flag is
cleared while the process-wide exit flag and the lifecycle state are
left untouched. -/
theorem c1_amended (i : Option Int) (p : Option ToolParams) (st : DaemonState) :
    process_message (.obj ⟨i, some ("shutdown"), p⟩) st =
      ⟨[⟨i.getD 0, .result .shutdownOk⟩],
       [.processingMethod ("shutdown"), .shutdownByClient],
       ⟨st.exitFlag, st.serverState, false, st.localState⟩⟩ :=
  rfl

/-- C2, counterexample.  The daemon state reached by handling an
initialize request from the fresh state has lifecycle state
Initialized, yet delivery of a termination signal there sets the
process-wide exit flag: the daemon signal handler sets EXIT_FLAG in
every state, so the signal is not ignored after initialization. -/
theorem c2_counterexample :
    (process_message (.obj ⟨some 1, some ("initialize"), none⟩)
        initialDaemonState).state.serverState = SrvState.initialized ∧
    (process_message (.obj ⟨some 1, some ("initialize"), none⟩)
        initialDaemonState).state.exitFlag = false ∧
    (daemon_signal_handler
        (process_message (.obj ⟨some 1, some ("initialize"), none⟩)
          initialDaemonState).state.serverState
        (process_message (.obj ⟨some 1, some ("initialize"), none⟩)
          initialDaemonState).state.exitFlag).2 = true :=
  ⟨rfl, rfl, rfl⟩

/-- C2, amended.  Only the relay ignores termination signals after
initialization: the socket-proxy handler leaves the exit flag unchanged
once INITIALIZED is set and sets it before.  The daemon handler sets
the exit flag in every lifecycle state (merely sleeping first when the
state is not waiting), and the standalone-server handler ignores
signals only while the IGNORE_SIGNALS critical-section flag is set,
regardless of lifecycle state. -/
theorem c2_amended (f g : Bool) (s : SrvState) :
    proxy_signal_handler true f = f ∧
    proxy_signal_handler false f = true ∧
    (daemon_signal_handler s f).2 = true ∧
    standalone_signal_handler true g = g ∧
    standalone_signal_handler false g = true :=
  ⟨rfl, rfl, rfl, rfl, rfl⟩

/-- C5, counterexample.  The method notifications/cancelled is not one
of initialize, tools/call, shutdown, yet the dispatcher sends no
response at all for it (it is acknowledged by logging only), instead of
the -32601 error object the claim requires for every unrecognized
method. -/
theorem c5_counterexample :
    (process_message (.obj ⟨some 7, some ("notifications/cancelled"), none⟩)
        initialDaemonState).responses = [] ∧
    (["initialize", "tools/call", "shutdown"] : List String).contains
        ("notifications/cancelled") = false :=
  ⟨rfl, rfl⟩

/-- C5, amended.  For every well-formed request frame whose method is
none of the recognized methods — initialize, tools/call, shutdown, and
also notifications/cancelled, which is consumed with no response — the
dispatcher sends back a response echoing the request id (default 0)
with an error object of code -32601, leaves the handler state
untouched, and the handler loop continues to process subsequent
frames. -/
theorem c5_amended (m : Msg) (st : DaemonState) (rest : List Line)
    (h : m.method.getD ("") ∉
      (["initialize", "tools/call", "shutdown", "notifications/cancelled"] :
        List String)) :
    (process_message (.obj m) st).responses =
      [⟨m.id.getD 0,
        .error ⟨-32601, "Method " ++ m.method.getD ("") ++ " not found"⟩⟩] ∧
    (process_message (.obj m) st).state = st ∧
    handleLines (.obj m :: rest) st =
      if !st.exitFlag && st.clientConnected then
        ((process_message (.obj m) st).responses ++ (handleLines rest st).1,
         (handleLines rest st).2)
      else ([], st) := by
  simp only [List.mem_cons, List.mem_singleton, not_or] at h
  obtain ⟨h1, h2, h3, h4⟩ := h
  have hr : (process_message (.obj m) st).responses =
      [⟨m.id.getD 0,
        .error ⟨-32601, "Method " ++ m.method.getD ("") ++ " not found"⟩⟩] := by
    simp [process_message, h1, h2, h3, h4]
  have hs : (process_message (.obj m) st).state = st := by
    simp [process_message, h1, h2, h3, h4]
  refine ⟨hr, hs, ?_⟩
  by_cases hg : (!st.exitFlag && st.clientConnected) = true
  · simp [handleLines, hg, hs]
  · simp [handleLines, hg]

/-- C5, witness for the amended theorem: a resources/list request with
id 9 is answered with the -32601 error echoing id 9 and the handler
state is unchanged. -/
theorem c5_amended_witness :
    (process_message (.obj ⟨some 9, some ("resources/list"), none⟩)
        initialDaemonState).responses =
      [⟨9, .error ⟨-32601, "Method resources/list not found"⟩⟩] ∧
    (process_message (.obj ⟨some 9, some ("resources/list"), none⟩)
        initialDaemonState).state = initialDaemonState := by
  have h := c5_amended ⟨some 9, some ("resources/list"), none⟩
    initialDaemonState [] (by decide)
  exact ⟨h.1, h.2.1⟩

/-- C6.  A line whose bytes are not valid JSON is dropped by the
dispatcher with a logged decode error and no response of any kind (the
attempted -32603 reply evaluates the unbound local `message` and the
resulting NameError is swallowed), the handler state — including the
connection flag — is unchanged, and the handler loop processes the next
frame exactly as it would have without the malformed line. -/
theorem c6_malformed_line_dropped (st : DaemonState) (l : Line) (rest : List Line) :
    process_message .malformed st = ⟨[], [.errorProcessing .jsonDecode], st⟩ ∧
    handleLines (.malformed :: l :: rest) st = handleLines (l :: rest) st := by
  refine ⟨rfl, ?_⟩
  by_cases hg : (!st.exitFlag && st.clientConnected) = true
  · conv_lhs => rw [handleLines]
    simp [hg, process_message]
  · conv_lhs => rw [handleLines]
    conv_rhs => rw [handleLines]
    simp [hg]

/-- C7.  Handling an identical initialize request when the session is
already Initialized returns the same capability manifest response as
the first handling (the response does not depend on the state at all)
and leaves the lifecycle state Initialized — it never regresses to
Waiting. -/
theorem c7_init_idempotent (m : Msg) (st : DaemonState)
    (hm : m.method = some ("initialize"))
    (hst : st.serverState = SrvState.initialized) :
    (process_message (.obj m) st).responses
        = (process_message (.obj m) initialDaemonState).responses ∧
    (process_message (.obj m) st).responses
        = [⟨m.id.getD 0, .result (.capabilities SERVER_CAPABILITIES)⟩] ∧
    (process_message (.obj m) st).state.serverState = SrvState.initialized ∧
    (process_message (.obj m) st).state.localState = SrvState.initialized := by
  obtain ⟨mid, mme, mp⟩ := m
  simp only [Msg.method] at hm
  subst hm
  exact ⟨rfl, rfl, rfl, rfl⟩

/-- C7, witness: re-handling initialize with id 1 in an initialized
session yields the manifest response with id 1 and keeps the state
Initialized. -/
theorem c7_init_idempotent_witness :
    (process_message (.obj ⟨some 1, some ("initialize"), none⟩)
        ⟨false, .initialized, true, .initialized⟩).responses
        = (process_message (.obj ⟨some 1, some ("initialize"), none⟩)
            initialDaemonState).responses ∧
    (process_message (.obj ⟨some 1, some ("initialize"), none⟩)
        ⟨false, .initialized, true, .initialized⟩).state.serverState
        = SrvState.initialized := by
  have h := c7_init_idempotent ⟨some 1, some ("initialize"), none⟩
    ⟨false, .initialized, true, .initialized⟩ rfl rfl
  exact ⟨h.1, h.2.2.1⟩

/-- C9.  For a request frame that lacks an id field, every response the
dispatcher emits — capability result, tool result, shutdown
acknowledgement, method-not-found error or internal error — carries id
0; the same holds for the internal-error reply to a frame that parses
to a non-object.  (Responses without an id cannot be built at all:
every constructed response carries an id field.) -/
theorem c9_missing_id_defaults_to_zero (m : Msg) (st : DaemonState)
    (h : m.id = none) :
    (process_message (.obj m) st).responses.all
        (fun r => r.id == 0) = true ∧
    (process_message Line.nonDict st).responses.all
        (fun r => r.id == 0) = true := by
  obtain ⟨mid, mme, mp⟩ := m
  simp only [Msg.id] at h
  subst h
  constructor
  · cases mp <;>
      simp [process_message, handleInitRequest, handle_tool_call, handle_shutdown] <;>
      split_ifs <;> simp
  · simp [process_message]

/-- C9, witness: a tools/call request without an id and without params
is answered with the internal-error response carrying id 0, and a
non-object frame is answered with id 0. -/
theorem c9_missing_id_witness :
    (process_message (.obj ⟨none, some ("tools/call"), none⟩)
        initialDaemonState).responses.all (fun r => r.id == 0) = true ∧
    (process_message Line.nonDict initialDaemonState).responses.all
        (fun r => r.id == 0) = true :=
  c9_missing_id_defaults_to_zero ⟨none, some ("tools/call"), none⟩
    initialDaemonState rfl

/-! ## Claims about the relay lifecycle -/

/-- Any relay step other than the daemon closing the socket or a signal
preserves: socket thread alive, exit flag unset, not terminated. -/
theorem relayStep_sock_inv (s : RelayState) (e : REvent)
    (h1 : e ≠ REvent.sockClosed) (h2 : e ≠ REvent.signal)
    (hs : s.sockAlive = true) (hf : s.exitFlag = false)
    (ht : s.terminated = false) :
    (relayStep s e).sockAlive = true ∧ (relayStep s e).exitFlag = false ∧
      (relayStep s e).terminated = false := by
  cases e <;>
    simp_all [relayStep] <;>
    split_ifs <;>
    simp_all

/-- Every relay step preserves: INITIALIZED set, exit flag unset, not
terminated. -/
theorem relayStep_init_inv (s : RelayState) (e : REvent)
    (hi : s.flagInit = true) (hf : s.exitFlag = false)
    (ht : s.terminated = false) :
    (relayStep s e).flagInit = true ∧ (relayStep s e).exitFlag = false ∧
      (relayStep s e).terminated = false := by
  cases e <;>
    simp_all [relayStep] <;>
    split_ifs <;>
    simp_all

/-- C3, counterexample.  From the relay start state (no initialize seen
yet, both forwarding threads alive), an end-of-input event makes the
stdin-forwarding thread exit, but the relay does not terminate: no
sequence of up to five further events that involve neither the daemon
closing the socket nor a signal — stdin events, receive timeouts,
supervisor checks — reaches a terminated state, because the main loop
exits only when both threads have died and the socket thread stays
alive on timeouts. -/
theorem c3_counterexample :
    (relayStep relayStart .stdinEof).stdinAlive = false ∧
    neverTermWithin 5 (relayStep relayStart .stdinEof) = true :=
  ⟨rfl, by decide⟩

/-- C3, amended.  End-of-input on the relay standard input before any
initialize makes the stdin-forwarding thread exit; the relay process
terminates at a supervisor check only once the socket-forwarding thread
has also exited (and the exit flag is unset) — while the socket thread
stays alive no event sequence without a socket closure or signal can
terminate the relay.  After an initialize has been seen, end-of-input
leaves the thread running, and no event sequence at all terminates the
relay. -/
theorem c3_amended :
    (∀ s : RelayState, s.terminated = false → s.flagInit = false →
        s.stdinAlive = true → (relayStep s .stdinEof).stdinAlive = false) ∧
    (∀ s : RelayState, s.terminated = false → s.flagInit = true →
        relayStep s .stdinEof = s) ∧
    (∀ s : RelayState, s.terminated = false → s.exitFlag = false →
        s.flagInit = false → s.stdinAlive = false → s.sockAlive = false →
        (relayStep s .mainCheck).terminated = true) ∧
    (∀ evs : List REvent,
      (∀ e ∈ evs, e ≠ REvent.sockClosed ∧ e ≠ REvent.signal) →
      ∀ s : RelayState, s.sockAlive = true → s.exitFlag = false →
        s.terminated = false → (runRelay s evs).terminated = false) ∧
    (∀ evs : List REvent, ∀ s : RelayState, s.flagInit = true →
        s.exitFlag = false → s.terminated = false →
        (runRelay s evs).terminated = false) := by
  refine ⟨?_, ?_, ?_, ?_, ?_⟩
  · intro s ht hi hs
    simp [relayStep, ht, hi, hs]
  · intro s ht hi
    simp [relayStep, ht, hi]
  · intro s ht hf hi hstd hsock
    simp [relayStep, ht, hf, hi, hstd, hsock]
  · intro evs
    induction evs with
    | nil => intro _ s _ _ ht; simpa [runRelay] using ht
    | cons e rest ih =>
        intro hmem s hs hf ht
        have he := hmem e (by simp)
        have hstep := relayStep_sock_inv s e he.1 he.2 hs hf ht
        have : runRelay s (e :: rest) = runRelay (relayStep s e) rest := rfl
        rw [this]
        exact ih (fun x hx => hmem x (by simp [hx])) _ hstep.1 hstep.2.1 hstep.2.2
  · intro evs
    induction evs with
    | nil => intro s _ _ ht; simpa [runRelay] using ht
    | cons e rest ih =>
        intro s hi hf ht
        have hstep := relayStep_init_inv s e hi hf ht
        have : runRelay s (e :: rest) = runRelay (relayStep s e) rest := rfl
        rw [this]
        exact ih _ hstep.1 hstep.2.1 hstep.2.2

/-- C3, witness for the amended theorem: concrete instances — EOF kills
the stdin thread from the start state; a supervisor check terminates
the relay once both threads are dead before initialization; a concrete
innocuous trace from a socket-alive state stays unterminated; and a
concrete trace from an initialized state (including a socket closure
and a signal) stays unterminated. -/
theorem c3_amended_witness :
    (relayStep ⟨false, true, true, false, false⟩ .stdinEof).stdinAlive = false ∧
    (relayStep ⟨false, false, false, false, false⟩ .mainCheck).terminated = true ∧
    (runRelay ⟨false, false, true, false, false⟩
        [.mainCheck, .sockTimeout, .mainCheck]).terminated = false ∧
    (runRelay ⟨true, true, true, false, false⟩
        [.stdinEof, .sockClosed, .signal, .mainCheck]).terminated = false := by
  refine ⟨c3_amended.1 _ rfl rfl rfl, c3_amended.2.2.1 _ rfl rfl rfl rfl rfl,
    c3_amended.2.2.2.1 [.mainCheck, .sockTimeout, .mainCheck] (by decide)
      _ rfl rfl rfl,
    c3_amended.2.2.2.2 [.stdinEof, .sockClosed, .signal, .mainCheck]
      _ rfl rfl rfl⟩

/-! ## Claims about the backend endpoint clients -/

/-- C8, counterexample.  A send_command call on a RhinoConnection whose
socket is already open dials no new TCP connection at all — the socket
is reused across calls; and a send_to_rhino call that times out yields
a returned well-formed JSON object carrying an error field, not a
raised transport error distinct from an application-level error inside
a response. -/
theorem c8_counterexample :
    (send_command ⟨true, 5⟩ true (.ok ("pong"))).opened = 0 ∧
    (send_command ⟨true, 5⟩ true (.ok ("pong"))).state.sockOpen = true ∧
    (send_to_rhino true .timeout).ret
      = RhinoReturn.response (.errObject ("Error communicating with Rhino")) :=
  ⟨rfl, rfl, rfl⟩

/-- C8, amended.  RhinoConnection.send_command enforces a 10-second
receive timeout and raises — distinctly from returning a response — on
timeout or connection failure, dropping its socket so the next call
redials; but it reuses an already-open socket across calls, dialling a
new connection only when none is open.  send_to_rhino dials a fresh
connection on every call with a 10-second timeout, but reports timeout
and connection failure by returning a well-formed JSON object with an
error field, never by raising a transport error. -/
theorem c8_amended (n : Nat) (d : Bool) (io : IoOutcome) (r : String) :
    (send_command ⟨true, n⟩ d io).opened = 0 ∧
    (send_command ⟨false, n⟩ true io).opened = 1 ∧
    (send_command ⟨true, n⟩ d io).recvTimeoutSecs = some 10 ∧
    (send_command ⟨true, n⟩ d .timeout).result = CmdResult.raisedTimeout ∧
    (send_command ⟨true, n⟩ d .reset).result = CmdResult.raisedConnError ∧
    (send_command ⟨false, n⟩ false io).result = CmdResult.raisedConnError ∧
    (send_command ⟨true, n⟩ d .timeout).state.sockOpen = false ∧
    (send_to_rhino true (.ok r)).opened = 1 ∧
    (send_to_rhino true io).recvTimeoutSecs = some 10 ∧
    (send_to_rhino true .timeout).ret
      = RhinoReturn.response (.errObject ("Error communicating with Rhino")) ∧
    (send_to_rhino d io).ret.isRaised = false := by
  refine ⟨?_, ?_, ?_, rfl, rfl, ?_, rfl, rfl, ?_, rfl, ?_⟩
  · cases io <;> rfl
  · cases io <;> rfl
  · cases io <;> rfl
  · cases io <;> rfl
  · cases io <;> rfl
  · cases d <;> cases io <;> rfl

/-! ## Claims about the frame codec -/

/-- Feeding chunks one at a time from an empty buffer equals scanning
the concatenated stream. -/
theorem feedAll_flatten (ds : List (List Char)) :
    feedAll [] ds = scanLines [] ds.flatten := by
  have h := feedAll_eq_scan ds [] (by simp)
  simpa using h

/-- C4.  For every finite sequence of encoded frames — each a nonempty
terminator-free serialized value followed by one line break — and every
partition of the concatenated byte stream (with terminator-free
trailing bytes) into arbitrary read chunks, the buffered decoding loop
delivers exactly the original frames in order, the trailing bytes
remain buffered and are never emitted, after any prefix of the chunks
the loop has delivered exactly the terminated lines of the bytes
received so far (so no frame is delivered before its terminator
arrives), and what has been delivered so far is always an initial
segment of the original frame sequence. -/
theorem c4_frame_roundtrip (fs : List (List Char)) (t : List Char)
    (cs : List (List Char))
    (hfs : ∀ f ∈ fs, f ≠ [] ∧ '\n' ∉ f)
    (ht : '\n' ∉ t)
    (hcs : cs.flatten = encodeFrames fs ++ t) :
    deliver (feedAll [] cs).1 = fs ∧
    (feedAll [] cs).2 = t ∧
    (∀ k, feedAll [] (cs.take k) = scanLines [] (cs.take k).flatten) ∧
    (∀ k, ∃ after, deliver (feedAll [] (cs.take k)).1 ++ after = fs) := by
  have hfull : scanLines [] cs.flatten = (fs, t) := by
    rw [hcs]
    exact scanLines_encode fs t (fun f hf => (hfs f hf).2) ht
  have hdeliver : deliver fs = fs := by
    apply List.filter_eq_self.mpr
    intro f hf
    have hne := (hfs f hf).1
    cases f with
    | nil => exact absurd rfl hne
    | cons a l => simp
  refine ⟨?_, ?_, fun k => feedAll_flatten (cs.take k), ?_⟩
  · rw [feedAll_flatten cs, hfull, hdeliver]
  · rw [feedAll_flatten cs, hfull]
  · intro k
    have hsplit : (cs.take k).flatten ++ (cs.drop k).flatten = cs.flatten := by
      rw [← List.flatten_append, List.take_append_drop]
    have happ := scanLines_append ((cs.take k).flatten) [] ((cs.drop k).flatten)
    rw [hsplit, hfull] at happ
    have h1 : fs = (scanLines [] (cs.take k).flatten).1 ++
        (scanLines (scanLines [] (cs.take k).flatten).2
          ((cs.drop k).flatten)).1 := by
      have := congrArg Prod.fst happ
      simpa using this
    refine ⟨deliver (scanLines (scanLines [] (cs.take k).flatten).2
      ((cs.drop k).flatten)).1, ?_⟩
    rw [feedAll_flatten (cs.take k)]
    show List.filter _ _ ++ List.filter _ _ = fs
    rw [← List.filter_append, ← h1]
    exact hdeliver

/-- C4, witness: the two frames ab and c arrive split across three
chunks that cut one frame in the middle, followed by the unterminated
byte x; the loop delivers exactly the two frames and keeps x
buffered. -/
theorem c4_frame_roundtrip_witness :
    deliver (feedAll [] [['a'], ['b', '\n', 'c'], ['\n', 'x']]).1
        = [['a', 'b'], ['c']] ∧
    (feedAll [] [['a'], ['b', '\n', 'c'], ['\n', 'x']]).2 = ['x'] := by
  have h := c4_frame_roundtrip [['a', 'b'], ['c']] ['x']
    [['a'], ['b', '\n', 'c'], ['\n', 'x']] (by decide) (by decide) (by decide)
  exact ⟨h.1, h.2.1⟩

/-- C10.  An empty frame — two consecutive terminators producing a
zero-length line — is silently skipped by both receive loops: the
delivered lines are exactly the nonempty frames of the stream in order,
so an empty frame is never forwarded to standard output by the relay
and never dispatched or answered by the daemon, and processing of the
subsequent frames is unaffected: running the daemon handler on the
delivered lines is the same as running it on the stream with the empty
frames removed. -/
theorem c10_empty_frames_skipped (fs : List (List Char)) (t : List Char)
    (cs : List (List Char))
    (hfs : ∀ f ∈ fs, '\n' ∉ f)
    (ht : '\n' ∉ t)
    (hcs : cs.flatten = encodeFrames fs ++ t) :
    deliver (feedAll [] cs).1 = fs.filter (fun l => !l.isEmpty) ∧
    (feedAll [] cs).2 = t ∧
    (∀ parse : List Char → Line, ∀ st : DaemonState,
      handleLines ((deliver (feedAll [] cs).1).map parse) st
        = handleLines (((fs.filter (fun l => !l.isEmpty)).map parse)) st) := by
  have hfull : scanLines [] cs.flatten = (fs, t) := by
    rw [hcs]
    exact scanLines_encode fs t hfs ht
  have h1 : deliver (feedAll [] cs).1 = fs.filter (fun l => !l.isEmpty) := by
    rw [feedAll_flatten cs, hfull]
    rfl
  refine ⟨h1, ?_, ?_⟩
  · rw [feedAll_flatten cs, hfull]
  · intro parse st
    rw [h1]

/-- C10, witness: the stream a-terminator-terminator-b-terminator,
arriving as one chunk, delivers exactly the frames a and b — the empty
frame between the consecutive terminators is skipped — and the daemon
handler behaves as if it had never existed. -/
theorem c10_empty_frames_skipped_witness :
    deliver (feedAll [] [['a', '\n', '\n', 'b', '\n']]).1 = [['a'], ['b']] ∧
    (feedAll [] [['a', '\n', '\n', 'b', '\n']]).2 = [] ∧
    handleLines ((deliver (feedAll [] [['a', '\n', '\n', 'b', '\n']]).1).map
        (fun _ => Line.malformed)) initialDaemonState
      = handleLines (([['a'], ['b']] : List (List Char)).map
        (fun _ => Line.malformed)) initialDaemonState := by
  have h := c10_empty_frames_skipped [['a'], [], ['b']] []
    [['a', '\n', '\n', 'b', '\n']] (by decide) (by decide) (by decide)
  exact ⟨h.1, h.2.1, h.2.2 (fun _ => Line.malformed) initialDaemonState⟩

end RhinoMcp
